import Mathlib

/-!
Verification of the RiskRadarAI feature-engineering pipeline.

This file gives a shallow embedding, over `ℝ` (with `Option ℝ` playing the
role of pandas NaN/missing values), of:

* `src/feature_engineering.py` — the batch transform `engineer_features`,
  `compute_risk_score`, `classify_risk`, `assign_risk_zone`, `minmax`;
* `backend/services/feature_builder.py` — the incremental transform
  `build_features`;
* the per-athlete temporal train/test split of `src/train_model.py`.

A dataframe is a `List Row` in presentation order; pandas `groupby`
preserves in-group order and aligns transformed columns back to the
original positions, which is embedded by `transformCol` below.
`Option ℝ` models a float column entry: `none` is NaN.  Pandas statistics
use `ddof = 1` (`sampleStd` is `none` for fewer than two values, matching
the NaN pandas produces there), and rolling windows skip NaN entries when
counting against `min_periods`, which `rollingMean`/`rollingStd` mirror.
Divisions whose float result would be `inf` or NaN are mapped to `none`;
the spots where that conflation could matter are noted at the definition.
-/

namespace RiskRadar

/-- One raw record (row) of the athlete dataset: the eight required input
columns of the pipeline.  Dates are abstracted as naturals (day numbers);
only their order is ever used by the code. -/
structure Row where
  athlete_id : ℕ
  date : ℕ
  daily_load : ℝ
  hrv : ℝ
  sleep_quality : ℝ
  resting_hr : ℝ
  past_injury : ℝ
  days_since_injury : ℝ

noncomputable section

/-- Mean of a list of reals (`Series.mean`).  For the empty list this is
`0/0 = 0` in Lean where pandas gives NaN; every use below is on nonempty
groups. -/
def mean (xs : List ℝ) : ℝ := xs.sum / xs.length

/-- Pandas sample standard deviation `Series.std()` (`ddof = 1`): NaN —
here `none` — when fewer than two values are present. -/
def sampleStd (xs : List ℝ) : Option ℝ :=
  if xs.length < 2 then none
  else some (Real.sqrt ((xs.map (fun x => (x - mean xs) ^ 2)).sum / (xs.length - 1)))

/-- `Series.max()` with pandas skipna semantics on a fully defined column:
`none` only for the empty column. -/
def listMax : List ℝ → Option ℝ
  | [] => none
  | x :: xs => some (xs.foldl max x)

/-- `Series.min()` on a fully defined column. -/
def listMin : List ℝ → Option ℝ
  | [] => none
  | x :: xs => some (xs.foldl min x)

/-- `Series.max()` on a column that may contain NaN entries: pandas skips
the NaN entries and is NaN only when no defined entry exists. -/
def omax (xs : List (Option ℝ)) : Option ℝ := listMax (xs.filterMap id)

/-- `Series.abs().max()` with skipna semantics. -/
def omaxAbs (xs : List (Option ℝ)) : Option ℝ := listMax ((xs.filterMap id).map abs)

/-- NaN-propagating lift of a binary operation to float entries. -/
def omap2 (f : ℝ → ℝ → ℝ) : Option ℝ → Option ℝ → Option ℝ
  | some a, some b => some (f a b)
  | _, _ => none

/-- Float subtraction of two column entries. -/
def osub : Option ℝ → Option ℝ → Option ℝ := omap2 (fun a b => a - b)

/-- Float multiplication of two column entries. -/
def omul : Option ℝ → Option ℝ → Option ℝ := omap2 (fun a b => a * b)

/-- The epsilon-guarded quotient `a / (b + 1e-6)` used throughout the batch
transform.  Both uses have `b ≥ 0` (a standard deviation), so the guarded
denominator is never `0` and the float result is finite whenever both
operands are defined. -/
def odivEps : Option ℝ → Option ℝ → Option ℝ := omap2 (fun a b => a / (b + 1e-6))

/-- `np.log1p` on a column entry.  (`np.log1p` is NaN below `-1`; every
argument below is a nonnegative monotony/strain value.) -/
def olog1p (x : Option ℝ) : Option ℝ := x.map (fun a => Real.log (1 + a))

/-- The rolling window of width `w` ending at position `i`: the last
`min w (i+1)` elements among the first `i+1`. -/
def window (w : ℕ) (xs : List (Option ℝ)) (i : ℕ) : List (Option ℝ) :=
  (xs.take (i + 1)).drop (i + 1 - w)

/-- `Series.rolling(w, min_periods=minp).mean()`: at each position, the
mean of the defined entries of the trailing window, provided at least
`minp` of them are defined; NaN (`none`) otherwise. -/
def rollingMean (w minp : ℕ) (xs : List (Option ℝ)) : List (Option ℝ) :=
  (List.range xs.length).map fun i =>
    let vals := (window w xs i).filterMap id
    if minp ≤ vals.length then some (mean vals) else none

/-- `Series.rolling(w, min_periods=minp).std()`: sample std (`ddof = 1`)
of the defined entries of the trailing window; NaN when fewer than `minp`
are defined, and also (via `sampleStd`) when only one is. -/
def rollingStd (w minp : ℕ) (xs : List (Option ℝ)) : List (Option ℝ) :=
  (List.range xs.length).map fun i =>
    let vals := (window w xs i).filterMap id
    if minp ≤ vals.length then sampleStd vals else none

/-- `Series.ffill()` with the value carried in from the left. -/
def ffillAux : Option ℝ → List (Option ℝ) → List (Option ℝ)
  | _, [] => []
  | carry, none :: xs => carry :: ffillAux carry xs
  | _, some x :: xs => some x :: ffillAux (some x) xs

/-- `Series.ffill()`: propagate the last defined value forward. -/
def ffill (xs : List (Option ℝ)) : List (Option ℝ) := ffillAux none xs

/-- `Series.bfill()`: propagate the next defined value backward. -/
def bfill : List (Option ℝ) → List (Option ℝ)
  | [] => []
  | some x :: xs => some x :: bfill xs
  | none :: xs => (bfill xs).headD none :: bfill xs

/-! ### groupby machinery

`df.groupby("athlete_id")[col].transform/rolling/apply` computes a
function of each athlete's subseries (taken in presentation order) and
writes the results back at the original row positions.  `groupRows` is the
subseries, `groupPos` the in-group position of row `i`, and `transformCol`
the realigned column. -/

/-- The subseries of `rows` belonging to athlete `a`, in order. -/
def groupRows (rows : List Row) (a : ℕ) : List Row :=
  rows.filter (fun r => r.athlete_id = a)

/-- The in-group position of row `i` within athlete `a`'s subseries. -/
def groupPos (rows : List Row) (i : ℕ) (a : ℕ) : ℕ :=
  ((rows.take i).filter (fun r => r.athlete_id = a)).length

/-- Apply a per-group column computation groupwise and realign the results
to the original row positions (`groupby(...).transform`, or
`groupby(...).rolling(...)...reset_index(level=0, drop=True)`). -/
def transformCol (f : List Row → List (Option ℝ)) (rows : List Row) : List (Option ℝ) :=
  (List.range rows.length).map fun i =>
    match rows.get? i with
    | none => none
    | some r => ((f (groupRows rows r.athlete_id)).get? (groupPos rows i r.athlete_id)).getD none

/-- Restrict an already-computed column to athlete `a`'s row positions
(`df.groupby("athlete_id")[col]` on a derived column). -/
def groupSlice (rows : List Row) (col : List (Option ℝ)) (a : ℕ) : List (Option ℝ) :=
  ((rows.zip col).filter (fun p => p.1.athlete_id = a)).map Prod.snd

/-- `df.groupby("athlete_id")[cols].apply(lambda grp: grp.ffill().bfill())`
realigned to the original positions, for one column. -/
def fillByGroup (rows : List Row) (col : List (Option ℝ)) : List (Option ℝ) :=
  (List.range rows.length).map fun i =>
    match rows.get? i with
    | none => none
    | some r => ((bfill (ffill (groupSlice rows col r.athlete_id))).get? (groupPos rows i r.athlete_id)).getD none

end

/-- The engineered feature row produced by the batch transform
(`engineer_features` in `src/feature_engineering.py`): the original record
plus every derived column.  The eight rolling columns carry the values
after the final per-group `ffill().bfill()` pass. -/
structure FeatB where
  row : Row
  daily_load_log : ℝ
  hrv_z : Option ℝ
  recovery_score : Option ℝ
  load_7d : Option ℝ
  load_14d : Option ℝ
  hrv_7d_mean : Option ℝ
  hrv_drop : Option ℝ
  training_monotony : Option ℝ
  training_strain : Option ℝ
  training_monotony_log : Option ℝ
  training_strain_log : Option ℝ
  history_risk : ℝ

noncomputable section

/-! ### Batch columns (`engineer_features`, lines 22–119) -/

/-- Line 39–41: per-athlete z-score of HRV over the athlete's whole
series, with the `1e-6` guard on the standard deviation.  When the std
itself is NaN (a single-record athlete, `ddof = 1`), `NaN + 1e-6` is NaN
and the whole column of that group is NaN. -/
def hrvZGroup (g : List Row) : List (Option ℝ) :=
  let xs := g.map (fun r => r.hrv)
  match sampleStd xs with
  | none => xs.map (fun _ => none)
  | some s => xs.map (fun x => some ((x - mean xs) / (s + 1e-6)))

/-- Line 34 restricted to a group: `np.log1p(df["daily_load"])`.  The log
transform is pointwise, so computing it inside the group slice agrees with
slicing the global `daily_load_log` column. -/
def dllGroup (g : List Row) : List (Option ℝ) :=
  g.map (fun r => some (Real.log (1 + r.daily_load)))

/-- Lines 57–62 per group: `rolling(7, min_periods=3).mean()` of the log
load. -/
def load7Group (g : List Row) : List (Option ℝ) := rollingMean 7 3 (dllGroup g)

/-- Lines 64–69 per group: `rolling(14, min_periods=5).mean()` of the log
load. -/
def load14Group (g : List Row) : List (Option ℝ) := rollingMean 14 5 (dllGroup g)

/-- Lines 71–76 per group: `rolling(7, min_periods=3).mean()` of the
`hrv_z` column (whose group slice is `hrvZGroup g`). -/
def hrv7Group (g : List Row) : List (Option ℝ) := rollingMean 7 3 (hrvZGroup g)

/-- Lines 83–88 per group: `rolling(7, min_periods=3).std()` of the
`load_7d` column (whose group slice is `load7Group g`). -/
def load7StdGroup (g : List Row) : List (Option ℝ) := rollingStd 7 3 (load7Group g)

/-- Line 39–41 aligned to the whole dataframe: the `hrv_z` column. -/
def hrvZCol (rows : List Row) : List (Option ℝ) := transformCol hrvZGroup rows

/-- Lines 57–62: the `load_7d` column. -/
def load7Col (rows : List Row) : List (Option ℝ) := transformCol load7Group rows

/-- Lines 64–69: the `load_14d` column. -/
def load14Col (rows : List Row) : List (Option ℝ) := transformCol load14Group rows

/-- Lines 71–76: the `hrv_7d_mean` column. -/
def hrv7Col (rows : List Row) : List (Option ℝ) := transformCol hrv7Group rows

/-- Line 78: `hrv_drop = hrv_z - hrv_7d_mean`. -/
def hrvDropCol (rows : List Row) : List (Option ℝ) :=
  List.zipWith osub (hrvZCol rows) (hrv7Col rows)

/-- Lines 83–88: the rolling std of `load_7d`, grouped. -/
def load7StdCol (rows : List Row) : List (Option ℝ) := transformCol load7StdGroup rows

/-- Line 90: `training_monotony = load_7d / (load_7d_std + 1e-6)`. -/
def monotonyCol (rows : List Row) : List (Option ℝ) :=
  List.zipWith odivEps (load7Col rows) (load7StdCol rows)

/-- Line 91: `training_strain = load_7d * training_monotony`. -/
def strainCol (rows : List Row) : List (Option ℝ) :=
  List.zipWith omul (load7Col rows) (monotonyCol rows)

/-- Line 93: `training_monotony_log = np.log1p(training_monotony)`. -/
def monotonyLogCol (rows : List Row) : List (Option ℝ) := (monotonyCol rows).map olog1p

/-- Line 94: `training_strain_log = np.log1p(training_strain)`. -/
def strainLogCol (rows : List Row) : List (Option ℝ) := (strainCol rows).map olog1p

/-- Lines 46–50: `recovery_score = 0.5*sleep_quality
+ 0.3*(hrv_z / (hrv_z.abs().max() + 1e-6))
- 0.2*(resting_hr / (resting_hr.max() + 1e-6))`.
Both maxima are taken over the WHOLE dataframe — `df["hrv_z"].abs().max()`
and `df["resting_hr"].max()` are not grouped by athlete — which is the
cross-athlete coupling examined below.  Both guarded denominators are
positive (`max ≥ 0` for `abs`; resting heart rates are the data's
positives), so the float result is finite whenever `hrv_z` is defined. -/
def recoveryCol (rows : List Row) : List (Option ℝ) :=
  let z := hrvZCol rows
  let mz := omaxAbs z
  let mr := listMax (rows.map (fun r => r.resting_hr))
  List.zipWith
    (fun r zi =>
      match zi, mz, mr with
      | some zv, some m, some mrv =>
          some (0.5 * r.sleep_quality + 0.3 * (zv / (m + 1e-6))
            - 0.2 * (r.resting_hr / (mrv + 1e-6)))
      | _, _, _ => none)
    rows z

/-- Lines 99–102: `history_risk = past_injury * exp(-days_since_injury/60)`,
a pointwise total function of the row. -/
def historyRisk (past days : ℝ) : ℝ := past * Real.exp (-(days / 60))

/-- Lines 22–119: the batch transform.  Every derived column is computed
as in the source; the eight rolling columns then pass through the
per-group `ffill().bfill()` of lines 107–117. -/
def engineer_features (rows : List Row) : List FeatB :=
  rows.mapIdx fun i r =>
    { row := r
      daily_load_log := Real.log (1 + r.daily_load)
      hrv_z := ((hrvZCol rows).get? i).getD none
      recovery_score := ((recoveryCol rows).get? i).getD none
      load_7d := ((fillByGroup rows (load7Col rows)).get? i).getD none
      load_14d := ((fillByGroup rows (load14Col rows)).get? i).getD none
      hrv_7d_mean := ((fillByGroup rows (hrv7Col rows)).get? i).getD none
      hrv_drop := ((fillByGroup rows (hrvDropCol rows)).get? i).getD none
      training_monotony := ((fillByGroup rows (monotonyCol rows)).get? i).getD none
      training_strain := ((fillByGroup rows (strainCol rows)).get? i).getD none
      training_monotony_log := ((fillByGroup rows (monotonyLogCol rows)).get? i).getD none
      training_strain_log := ((fillByGroup rows (strainLogCol rows)).get? i).getD none
      history_risk := historyRisk r.past_injury r.days_since_injury }

/-! ### Risk score and classification (lines 127–171) -/

/-- Lines 10–12: `minmax(series) = (series - min) / (max - min + 1e-6)`,
with the min and max taken (skipna) over the whole series handed in.  NaN
entries stay NaN; an all-NaN series stays all-NaN. -/
def minmaxCol (xs : List (Option ℝ)) : List (Option ℝ) :=
  match listMin (xs.filterMap id), listMax (xs.filterMap id) with
  | some mn, some mx => xs.map (fun x => x.map (fun v => (v - mn) / (mx - mn + 1e-6)))
  | _, _ => xs.map (fun _ => none)

/-- Lines 127–146: `compute_risk_score`, returning the `risk_score`
column aligned with the input feature rows.  Each `minmax` is taken over
the corresponding column of the entire batch. -/
def compute_risk_score (dfF : List FeatB) : List (Option ℝ) :=
  let load_risk := minmaxCol (dfF.map (fun f => f.load_7d))
  let fatigue_risk := minmaxCol (dfF.map (fun f => f.hrv_drop.map (fun v => -v)))
  let monotony_risk := minmaxCol (dfF.map (fun f => f.training_monotony_log))
  let recovery_risk := (minmaxCol (dfF.map (fun f => f.recovery_score))).map
    (fun x => x.map (fun v => 1 - v))
  (List.range dfF.length).map fun i =>
    match (load_risk.get? i).getD none, (fatigue_risk.get? i).getD none,
        (monotony_risk.get? i).getD none, (recovery_risk.get? i).getD none,
        (dfF.get? i).map (fun f => f.history_risk) with
    | some a, some b, some c, some d, some h =>
        some (0.25 * a + 0.25 * b + 0.15 * c + 0.20 * d + 0.15 * h)
    | _, _, _, _, _ => none

/-- Lines 149–162: `classify_risk`.  A float score is `none` exactly when
`pd.isna(score)` holds. -/
def classify_risk (score : Option ℝ) : String :=
  match score with
  | none => "Unknown"
  | some s => if s < 0.4 then "Safe" else if s < 0.9 then "Moderate" else "High"

/-- Lines 165–171: `assign_risk_zone` maps `classify_risk` over the
`risk_score` column. -/
def assign_risk_zone (scores : List (Option ℝ)) : List String :=
  scores.map classify_risk

end

/-! ### Sorting (pandas `sort_values`)

`build_features` sorts by `["athlete_id", "date"]` and the training split
sorts each group by `"date"`.  A stable insertion sort models this; on the
strictly ordered inputs the claims are about, any correct sort is the
identity, so the tie-breaking of pandas quicksort never matters here. -/

/-- Insert a row into a sorted list, before the first element it is `le`
to (stable: it stays behind earlier equal keys). -/
def insertBy (le : Row → Row → Bool) (x : Row) : List Row → List Row
  | [] => [x]
  | y :: ys => if le x y then x :: y :: ys else y :: insertBy le x ys

/-- Stable insertion sort by the Boolean key order `le`. -/
def sortBy (le : Row → Row → Bool) : List Row → List Row
  | [] => []
  | x :: xs => insertBy le x (sortBy le xs)

/-- The `["athlete_id", "date"]` lexicographic key of
`feature_builder.py` line 40. -/
def rowLe (a b : Row) : Bool :=
  a.athlete_id < b.athlete_id || (a.athlete_id == b.athlete_id && a.date ≤ b.date)

/-- The `"date"` key of `train_model.py` line 82. -/
def dateLe (a b : Row) : Bool := a.date ≤ b.date

/-- `le` holds between each pair of adjacent rows. -/
def chainB (le : Row → Row → Bool) : List Row → Bool
  | [] => true
  | [_] => true
  | a :: b :: t => le a b && chainB le (b :: t)

/-- Strict date ordering of adjacent rows (the "ordered records"
hypothesis of the spec). -/
def strictByDate : List Row → Bool
  | [] => true
  | [_] => true
  | a :: b :: t => decide (a.date < b.date) && strictByDate (b :: t)

noncomputable section

/-! ### Incremental transform (`backend/services/feature_builder.py`) -/

/-- The five model features returned by `build_features`
(`MODEL_FEATURES`, lines 5–11). -/
structure Feat5 where
  load_7d : Option ℝ
  hrv_drop : Option ℝ
  training_monotony_log : Option ℝ
  recovery_score : Option ℝ
  history_risk : ℝ

/-- Lines 47–49: the per-athlete z-score of the incremental transform.
Unlike the batch version there is NO `1e-6` guard: `x.std()` is used
directly, so a constant series (std `0`, numerator `0`) yields `0/0` ==
NaN, and a single-record series (std NaN) yields NaN.  When the std is a
nonzero real the quotient is an ordinary real. -/
def hrvZGroupInc (g : List Row) : List (Option ℝ) :=
  let xs := g.map (fun r => r.hrv)
  match sampleStd xs with
  | none => xs.map (fun _ => none)
  | some s =>
      if s = 0 then xs.map (fun _ => none)
      else xs.map (fun x => some ((x - mean xs) / s))

/-- Lines 85–89: the incremental `recovery_score`, with UNGUARDED maxima:
`hrv_z / hrv_z.max()` (not the absolute max) and
`resting_hr / resting_hr.max()`.  When `hrv_z` is defined its skipna max
is strictly positive (z-scores sum to zero), so only a zero
`resting_hr.max()` could make the float result non-finite; that case
(conflated into `none` here) needs a nonpositive heart-rate column and is
touched by no claim. -/
def recoveryColInc (rows : List Row) (z : List (Option ℝ)) : List (Option ℝ) :=
  let mz := omax z
  let mr := listMax (rows.map (fun r => r.resting_hr))
  List.zipWith
    (fun r zi =>
      match zi, mz, mr with
      | some zv, some m, some mrv =>
          if m = 0 ∨ mrv = 0 then none
          else some (0.5 * r.sleep_quality + 0.3 * (zv / m) - 0.2 * (r.resting_hr / mrv))
      | _, _, _ => none)
    rows z

/-- Lines 18–104: the incremental transform `build_features`.  It filters
the stored history to the target athlete, rejects fewer than 60 prior
records (lines 29–30), appends today's record, sorts by
`["athlete_id", "date"]` (line 40) and recomputes the feature columns
with `min_periods = 1`, finally returning the five model features of the
last row (lines 100–104). -/
def build_features (today : Row) (history : List Row) : Except String Feat5 :=
  let athlete_df := history.filter (fun r => r.athlete_id = today.athlete_id)
  if athlete_df.length < 60 then
    Except.error "Athlete must have at least 60 days of history."
  else
    let df := sortBy rowLe (athlete_df ++ [today])
    let hrvZ := transformCol hrvZGroupInc df
    let load7 := transformCol (fun g => rollingMean 7 1 (dllGroup g)) df
    let hrv7 := transformCol (fun g => rollingMean 7 1 (hrvZGroupInc g)) df
    let hrvDrop := List.zipWith osub hrvZ hrv7
    let load7std := transformCol (fun g => rollingStd 7 1 (dllGroup g)) df
    let monotony := List.zipWith odivEps load7 load7std
    let monotonyLog := monotony.map olog1p
    let recovery := recoveryColInc df hrvZ
    let n := df.length
    Except.ok
      { load_7d := (load7.get? (n - 1)).getD none
        hrv_drop := (hrvDrop.get? (n - 1)).getD none
        training_monotony_log := (monotonyLog.get? (n - 1)).getD none
        recovery_score := (recovery.get? (n - 1)).getD none
        history_risk :=
          match df.getLast? with
          | some r => historyRisk r.past_injury r.days_since_injury
          | none => 0 }

end

/-! ### Temporal train/test split (`src/train_model.py`, lines 78–95)

For each athlete the group is sorted by date and cut at
`int(len(g) * 0.8)`.  `int(n * 0.8)` on a float is `⌊0.8 n⌋` for every
realistic group size (the binary rounding of `0.8` never crosses an
integer at these magnitudes), embedded exactly as `4 * n / 5` in ℕ. -/

/-- The train/test slices of one athlete's records. -/
def splitAthlete (df : List Row) (a : ℕ) : List Row × List Row :=
  let g := sortBy dateLe (df.filter (fun r => r.athlete_id = a))
  let k := 4 * g.length / 5
  (g.take k, g.drop k)

/-! ### Mutation model for the frame claim

Python dataframes are heap values; `engineer_features`,
`compute_risk_score` and `assign_risk_zone` all begin with
`df = df.copy()` and assign columns only on the copy.  A store of Python
values makes this explicit: each function allocates a fresh cell holding
a copy of the argument, writes its derived columns into that cell only,
and returns the fresh reference. -/

/-- A dataframe-shaped Python value at each pipeline stage. -/
inductive PyVal where
  | rows : List Row → PyVal
  | feats : List FeatB → PyVal
  | scored : List FeatB → List (Option ℝ) → PyVal
  | zoned : List FeatB → List (Option ℝ) → List String → PyVal

/-- The heap: numbered cells of Python values. -/
abbrev Store := List PyVal

/-- `engineer_features(df)` as a store program: `df.copy()` allocates,
every subsequent `df[...] = ...` hits only the new cell. -/
noncomputable def engineer_features_prog (s : Store) (r : ℕ) : Store × ℕ :=
  let v := s.getD r (PyVal.rows [])
  let s1 := s ++ [v]
  let rc := s.length
  let v1 := match v with
    | PyVal.rows rows => PyVal.feats (engineer_features rows)
    | w => w
  (s1.set rc v1, rc)

/-- `compute_risk_score(df)` as a store program. -/
noncomputable def compute_risk_score_prog (s : Store) (r : ℕ) : Store × ℕ :=
  let v := s.getD r (PyVal.rows [])
  let s1 := s ++ [v]
  let rc := s.length
  let v1 := match v with
    | PyVal.feats dfF => PyVal.scored dfF (compute_risk_score dfF)
    | w => w
  (s1.set rc v1, rc)

/-- `assign_risk_zone(df)` as a store program. -/
noncomputable def assign_risk_zone_prog (s : Store) (r : ℕ) : Store × ℕ :=
  let v := s.getD r (PyVal.rows [])
  let s1 := s ++ [v]
  let rc := s.length
  let v1 := match v with
    | PyVal.scored dfF sc => PyVal.zoned dfF sc (assign_risk_zone sc)
    | w => w
  (s1.set rc v1, rc)

/-! ### Concrete test rows and dataframes -/

/-- A record of athlete 1 on day `d` with HRV `h` and the other columns
fixed at innocuous values. -/
def mkR (d : ℕ) (h : ℝ) : Row :=
  { athlete_id := 1, date := d, daily_load := 100, hrv := h,
    sleep_quality := 1, resting_hr := 50, past_injury := 0, days_since_injury := 0 }

/-- A record of athlete `a` on day `d` with resting heart rate `rh` and
constant HRV `50`. -/
def mkR2 (a d : ℕ) (rh : ℝ) : Row :=
  { athlete_id := a, date := d, daily_load := 100, hrv := 50,
    sleep_quality := 1, resting_hr := rh, past_injury := 0, days_since_injury := 0 }

/-- Two athletes, two records each, every resting heart rate 40. -/
def dfA : List Row := [mkR2 1 0 40, mkR2 1 1 40, mkR2 2 0 40, mkR2 2 1 40]

/-- The same dataframe except that athlete 2's resting heart rates are
raised to 90; athlete 1's records are untouched. -/
def dfB : List Row := [mkR2 1 0 40, mkR2 1 1 40, mkR2 2 0 90, mkR2 2 1 90]

/-! ### Test data for the batch/incremental comparison: one athlete,
60 days of history (HRV `+7` on days 0-23 and 54-59, `-7` on days 24-53)
plus a new day 60 with HRV `0`.  The HRV column sums to zero and its
sample variance is `60 * 49 / 60 = 49`, so the athlete-wide std is
exactly `7`. -/

def hist60 : List Row :=
  [mkR 0 7, mkR 1 7, mkR 2 7, mkR 3 7,
   mkR 4 7, mkR 5 7, mkR 6 7, mkR 7 7,
   mkR 8 7, mkR 9 7, mkR 10 7, mkR 11 7,
   mkR 12 7, mkR 13 7, mkR 14 7, mkR 15 7,
   mkR 16 7, mkR 17 7, mkR 18 7, mkR 19 7,
   mkR 20 7, mkR 21 7, mkR 22 7, mkR 23 7,
   mkR 24 (-7), mkR 25 (-7), mkR 26 (-7), mkR 27 (-7),
   mkR 28 (-7), mkR 29 (-7), mkR 30 (-7), mkR 31 (-7),
   mkR 32 (-7), mkR 33 (-7), mkR 34 (-7), mkR 35 (-7),
   mkR 36 (-7), mkR 37 (-7), mkR 38 (-7), mkR 39 (-7),
   mkR 40 (-7), mkR 41 (-7), mkR 42 (-7), mkR 43 (-7),
   mkR 44 (-7), mkR 45 (-7), mkR 46 (-7), mkR 47 (-7),
   mkR 48 (-7), mkR 49 (-7), mkR 50 (-7), mkR 51 (-7),
   mkR 52 (-7), mkR 53 (-7), mkR 54 7, mkR 55 7,
   mkR 56 7, mkR 57 7, mkR 58 7, mkR 59 7]

/-- The queried new day for the incremental mode. -/
def today60 : Row := mkR 60 0

/-- The full 61-record series seen by both modes. -/
def df61 : List Row := hist60 ++ [today60]

/-- The HRV column of `df61`. -/
def hrv61 : List ℝ :=
  [7, 7, 7, 7, 7, 7, 7, 7, 7, 7, 7, 7,
   7, 7, 7, 7, 7, 7, 7, 7, 7, 7, 7, 7,
   -7, -7, -7, -7, -7, -7, -7, -7, -7, -7, -7, -7,
   -7, -7, -7, -7, -7, -7, -7, -7, -7, -7, -7, -7,
   -7, -7, -7, -7, -7, -7, 7, 7, 7, 7, 7, 7,
   0]

/-- A fully defined engineered feature row used to exercise
`compute_risk_score` on a concrete batch. -/
noncomputable def wRow : FeatB :=
  { row := mkR 0 50
    daily_load_log := 0
    hrv_z := some 0
    recovery_score := some 0.6
    load_7d := some 2
    load_14d := some 2
    hrv_7d_mean := some 0
    hrv_drop := some 0.1
    training_monotony := some 3
    training_strain := some 6
    training_monotony_log := some 1.2
    training_strain_log := some 2
    history_risk := 0.5 }

/-! ### General lemmas about the embedding -/

theorem length_transformCol (f : List Row → List (Option ℝ)) (rows : List Row) :
    (transformCol f rows).length = rows.length := by
  simp [transformCol]

theorem transformCol_get? (f : List Row → List (Option ℝ)) (rows : List Row) (i : ℕ)
    (r : Row) (h : rows.get? i = some r) :
    (transformCol f rows).get? i
      = some (((f (groupRows rows r.athlete_id)).get? (groupPos rows i r.athlete_id)).getD none) := by
  obtain ⟨hi, -⟩ := List.get?_eq_some.mp h
  rw [transformCol, List.get?_eq_getElem?, List.getElem?_map, List.getElem?_range hi,
    Option.map_some']
  show some (match rows.get? i with
    | none => none
    | some r => ((f (groupRows rows r.athlete_id)).get? (groupPos rows i r.athlete_id)).getD none)
      = _
  rw [h]

theorem fillByGroup_get? (rows : List Row) (col : List (Option ℝ)) (i : ℕ)
    (r : Row) (h : rows.get? i = some r) :
    (fillByGroup rows col).get? i
      = some (((bfill (ffill (groupSlice rows col r.athlete_id))).get?
          (groupPos rows i r.athlete_id)).getD none) := by
  obtain ⟨hi, -⟩ := List.get?_eq_some.mp h
  rw [fillByGroup, List.get?_eq_getElem?, List.getElem?_map, List.getElem?_range hi,
    Option.map_some']
  show some (match rows.get? i with
    | none => none
    | some r => ((bfill (ffill (groupSlice rows col r.athlete_id))).get?
        (groupPos rows i r.athlete_id)).getD none) = _
  rw [h]

theorem rollingMean_get? (w minp : ℕ) (xs : List (Option ℝ)) (i : ℕ) (hi : i < xs.length) :
    (rollingMean w minp xs).get? i
      = some (if minp ≤ ((window w xs i).filterMap id).length
          then some (mean ((window w xs i).filterMap id)) else none) := by
  rw [rollingMean, List.get?_eq_getElem?, List.getElem?_map, List.getElem?_range hi,
    Option.map_some']

theorem rollingStd_get? (w minp : ℕ) (xs : List (Option ℝ)) (i : ℕ) (hi : i < xs.length) :
    (rollingStd w minp xs).get? i
      = some (if minp ≤ ((window w xs i).filterMap id).length
          then sampleStd ((window w xs i).filterMap id) else none) := by
  rw [rollingStd, List.get?_eq_getElem?, List.getElem?_map, List.getElem?_range hi,
    Option.map_some']

/-- Forward fill never clobbers an entry that is already defined. -/
theorem ffillAux_get?_some :
    ∀ (xs : List (Option ℝ)) (c : Option ℝ) (i : ℕ) (v : ℝ),
      xs.get? i = some (some v) → (ffillAux c xs).get? i = some (some v)
  | [], _, i, _, h => by simp at h
  | x :: t, c, 0, v, h => by
      cases x with
      | none => simp at h
      | some y =>
          have hy : y = v := by simpa using h
          subst hy
          rfl
  | x :: t, c, i + 1, v, h => by
      have ht : t.get? i = some (some v) := h
      cases x with
      | none =>
          show (ffillAux c t).get? i = some (some v)
          exact ffillAux_get?_some t c i v ht
      | some y =>
          show (ffillAux (some y) t).get? i = some (some v)
          exact ffillAux_get?_some t (some y) i v ht

theorem ffill_get?_some (xs : List (Option ℝ)) (i : ℕ) (v : ℝ)
    (h : xs.get? i = some (some v)) : (ffill xs).get? i = some (some v) :=
  ffillAux_get?_some xs none i v h

/-- Backward fill never clobbers an entry that is already defined. -/
theorem bfill_get?_some :
    ∀ (xs : List (Option ℝ)) (i : ℕ) (v : ℝ),
      xs.get? i = some (some v) → (bfill xs).get? i = some (some v)
  | [], i, _, h => by simp at h
  | x :: t, 0, v, h => by
      cases x with
      | none => simp at h
      | some y =>
          have hy : y = v := by simpa using h
          subst hy
          rfl
  | x :: t, i + 1, v, h => by
      have ht : t.get? i = some (some v) := h
      cases x with
      | none =>
          show (bfill t).get? i = some (some v)
          exact bfill_get?_some t i v ht
      | some y =>
          show (bfill t).get? i = some (some v)
          exact bfill_get?_some t i v ht

/-- Every row of `rows` carries athlete `a` as soon as the projected
athlete column is constant. -/
theorem all_athlete_of_map (rows : List Row) (a : ℕ)
    (h : rows.map (fun r => r.athlete_id) = List.replicate rows.length a) :
    ∀ r ∈ rows, r.athlete_id = a := by
  intro r hr
  have hm : r.athlete_id ∈ rows.map (fun r => r.athlete_id) :=
    List.mem_map_of_mem _ hr
  rw [h] at hm
  exact List.eq_of_mem_replicate hm

/-- A single-athlete dataframe is its own (only) group. -/
theorem groupRows_eq_self (rows : List Row) (a : ℕ)
    (hall : ∀ r ∈ rows, r.athlete_id = a) : groupRows rows a = rows := by
  apply List.filter_eq_self.mpr
  intro r hr
  simp [hall r hr]

/-- On a single-athlete dataframe the group slice of a full-length column
is the column itself. -/
theorem groupSlice_eq_self (rows : List Row) (col : List (Option ℝ)) (a : ℕ)
    (hall : ∀ r ∈ rows, r.athlete_id = a) (hlen : col.length = rows.length) :
    groupSlice rows col a = col := by
  unfold groupSlice
  have hz : (rows.zip col).filter (fun p => decide (p.1.athlete_id = a)) = rows.zip col := by
    apply List.filter_eq_self.mpr
    intro p hp
    have h1 : p.1 ∈ rows := (List.mem_zip hp).1
    simp [hall p.1 h1]
  rw [hz]
  exact List.map_snd_zip rows col (le_of_eq hlen)

/-- Inserting below the head of a chain keeps the list unchanged, so a
stable sort of an already sorted list is the identity. -/
theorem sortBy_eq_self (le : Row → Row → Bool) :
    ∀ l : List Row, chainB le l = true → sortBy le l = l
  | [] => fun _ => rfl
  | [x] => fun _ => rfl
  | x :: y :: t => fun h => by
      have hp : le x y = true ∧ chainB le (y :: t) = true := by
        simpa [chainB, Bool.and_eq_true] using h
      have ih := sortBy_eq_self le (y :: t) hp.2
      show insertBy le x (sortBy le (y :: t)) = x :: y :: t
      rw [ih]
      simp [insertBy, hp.1]

/-- Strict date order gives the nonstrict date chain. -/
theorem chainB_dateLe_of_strict :
    ∀ l : List Row, strictByDate l = true → chainB dateLe l = true
  | [] => fun _ => rfl
  | [_] => fun _ => rfl
  | a :: b :: t => fun h => by
      have hp : a.date < b.date ∧ strictByDate (b :: t) = true := by
        simpa [strictByDate, Bool.and_eq_true] using h
      have ih := chainB_dateLe_of_strict (b :: t) hp.2
      simp [chainB, dateLe, Bool.and_eq_true, Nat.le_of_lt hp.1, ih]

/-- Strict date order within one athlete gives the
`["athlete_id", "date"]` chain. -/
theorem chainB_rowLe_of_strict (a : ℕ) :
    ∀ l : List Row, (∀ r ∈ l, r.athlete_id = a) → strictByDate l = true →
      chainB rowLe l = true
  | [] => fun _ _ => rfl
  | [_] => fun _ _ => rfl
  | x :: y :: t => fun hall h => by
      have hp : x.date < y.date ∧ strictByDate (y :: t) = true := by
        simpa [strictByDate, Bool.and_eq_true] using h
      have hx : x.athlete_id = a := hall x (by simp)
      have hy : y.athlete_id = a := hall y (by simp)
      have ih := chainB_rowLe_of_strict a (y :: t)
        (fun r hr => hall r (List.mem_cons_of_mem _ hr)) hp.2
      simp [chainB, rowLe, Bool.and_eq_true, hx, hy, Nat.le_of_lt hp.1, ih]

/-- Unfolding one output row of the batch transform. -/
theorem engineer_features_get? (rows : List Row) (i : ℕ) (r : Row)
    (h : rows.get? i = some r) :
    (engineer_features rows).get? i = some
      { row := r
        daily_load_log := Real.log (1 + r.daily_load)
        hrv_z := ((hrvZCol rows).get? i).getD none
        recovery_score := ((recoveryCol rows).get? i).getD none
        load_7d := ((fillByGroup rows (load7Col rows)).get? i).getD none
        load_14d := ((fillByGroup rows (load14Col rows)).get? i).getD none
        hrv_7d_mean := ((fillByGroup rows (hrv7Col rows)).get? i).getD none
        hrv_drop := ((fillByGroup rows (hrvDropCol rows)).get? i).getD none
        training_monotony := ((fillByGroup rows (monotonyCol rows)).get? i).getD none
        training_strain := ((fillByGroup rows (strainCol rows)).get? i).getD none
        training_monotony_log := ((fillByGroup rows (monotonyLogCol rows)).get? i).getD none
        training_strain_log := ((fillByGroup rows (strainLogCol rows)).get? i).getD none
        history_risk := historyRisk r.past_injury r.days_since_injury } := by
  rw [engineer_features, List.get?_eq_getElem?, List.getElem?_mapIdx,
    ← List.get?_eq_getElem?, h, Option.map_some']

/-- Strict adjacent date order is pairwise strict date order. -/
theorem pairwise_of_strictByDate (l : List Row) (h : strictByDate l = true) :
    List.Pairwise (fun a b : Row => a.date < b.date) l := by
  haveI : IsTrans Row (fun a b : Row => a.date < b.date) :=
    ⟨fun _ _ _ h1 h2 => h1.trans h2⟩
  rw [← List.chain'_iff_pairwise]
  induction l with
  | nil => exact List.chain'_nil
  | cons x t ih =>
      cases t with
      | nil => simp
      | cons y t2 =>
          have hp : x.date < y.date ∧ strictByDate (y :: t2) = true := by
            simpa [strictByDate, Bool.and_eq_true] using h
          exact List.Chain'.cons hp.1 (ih hp.2)

/-- Mean of a constant series. -/
theorem mean_replicate (n : ℕ) (c : ℝ) (hn : n ≠ 0) :
    mean (List.replicate n c) = c := by
  rw [mean, List.sum_replicate, List.length_replicate, nsmul_eq_mul]
  have hn0 : (n : ℝ) ≠ 0 := Nat.cast_ne_zero.mpr hn
  field_simp

/-- Sample std of a constant series with at least two entries is zero. -/
theorem sampleStd_replicate (n : ℕ) (c : ℝ) (hn : 2 ≤ n) :
    sampleStd (List.replicate n c) = some 0 := by
  rw [sampleStd, if_neg (by simp only [List.length_replicate]; omega)]
  rw [List.map_replicate, mean_replicate n c (by omega)]
  simp

/-- The batch z-score of a constant-HRV group of at least two records is
the all-zero column: the `1e-6` guard turns `0 / (0 + 1e-6)` into `0`. -/
theorem hrvZGroup_const (g : List Row) (c : ℝ) (hg : 2 ≤ g.length)
    (hc : g.map (fun r => r.hrv) = List.replicate g.length c) :
    hrvZGroup g = List.replicate g.length (some 0) := by
  rw [hrvZGroup]
  simp only [hc]
  rw [sampleStd_replicate g.length c hg]
  rw [List.map_replicate, mean_replicate g.length c (by omega)]
  simp

/-- The incremental z-score of a constant-HRV group of at least two
records is the all-NaN column: the unguarded `x.std()` is zero there. -/
theorem hrvZGroupInc_const (g : List Row) (c : ℝ) (hg : 2 ≤ g.length)
    (hc : g.map (fun r => r.hrv) = List.replicate g.length c) :
    hrvZGroupInc g = List.replicate g.length none := by
  rw [hrvZGroupInc]
  simp only [hc, sampleStd_replicate g.length c hg]
  simp [List.map_replicate]

/-! ### Claim C2 — classify_risk thresholds -/

/-- C2 counterexample: the claim says the input `-0.1` is classified
`Unknown`, but `classify_risk` consults only `pd.isna` for `Unknown` and
`-0.1 < 0.4` falls straight into the `Safe` branch — no clamping
happens. -/
theorem C2_counterexample :
    classify_risk (some (-0.1)) = "Safe" ∧ "Safe" ≠ "Unknown" := by
  refine ⟨?_, by decide⟩
  have h : ((-0.1 : ℝ) < 0.4) := by norm_num
  simp [classify_risk, h]

/-- C2 (amended): `classify_risk` is a deterministic total function of the
score alone; it returns `Unknown` exactly on a missing (NaN) score,
`Safe` below `0.4` — including every negative score such as `-0.1` —
`Moderate` below `0.9`, and `High` otherwise. -/
theorem C2_thresholds :
    classify_risk none = "Unknown" ∧
    classify_risk (some 0.0) = "Safe" ∧
    classify_risk (some 0.39999) = "Safe" ∧
    classify_risk (some 0.4) = "Moderate" ∧
    classify_risk (some 0.89999) = "Moderate" ∧
    classify_risk (some 0.9) = "High" ∧
    classify_risk (some 1.2) = "High" ∧
    classify_risk (some (-0.1)) = "Safe" := by
  refine ⟨rfl, ?_, ?_, ?_, ?_, ?_, ?_, ?_⟩ <;> norm_num [classify_risk]

/-! ### Claim C7 — history risk decay -/

/-- C7: on every record the batch transform's `history_risk` equals
`past_injury * exp(-days_since_injury / 60)`; in particular it is exactly
`1` at `(past, days) = (1, 0)`, exactly `exp (-1)` at `(1, 60)`, and
exactly `0` whenever `past_injury = 0`, whatever `days_since_injury`
is. -/
theorem C7_history_risk :
    (∀ (rows : List Row) (i : ℕ) (r : Row), rows.get? i = some r →
      ((engineer_features rows).get? i).map (fun f => f.history_risk)
        = some (r.past_injury * Real.exp (-(r.days_since_injury / 60)))) ∧
    historyRisk 1 0 = 1 ∧
    historyRisk 1 60 = Real.exp (-1) ∧
    ∀ d : ℝ, historyRisk 0 d = 0 := by
  refine ⟨?_, ?_, ?_, ?_⟩
  · intro rows i r h
    rw [engineer_features_get? rows i r h, Option.map_some']
    rfl
  · norm_num [historyRisk]
  · norm_num [historyRisk]
  · intro d
    simp [historyRisk]

/-- C7 witness at a concrete one-row dataframe. -/
theorem C7_witness :
    ((engineer_features [mkR 0 50]).get? 0).map (fun f => f.history_risk)
      = some ((mkR 0 50).past_injury * Real.exp (-((mkR 0 50).days_since_injury / 60))) :=
  C7_history_risk.1 [mkR 0 50] 0 (mkR 0 50) rfl

/-! ### Claim C8 — minimum history gate of the incremental mode -/

/-- C8: `build_features` rejects, with the explicit insufficient-history
error and before computing any feature, every athlete with fewer than 60
stored records; with 60 or more it passes the gate and returns a feature
row. -/
theorem C8_min_history_gate (today : Row) (history : List Row) :
    ((history.filter (fun r => r.athlete_id = today.athlete_id)).length < 60 →
      build_features today history
        = Except.error "Athlete must have at least 60 days of history.") ∧
    (60 ≤ (history.filter (fun r => r.athlete_id = today.athlete_id)).length →
      (build_features today history).toOption.isSome = true) := by
  constructor
  · intro h
    simp only [build_features]
    rw [if_pos h]
  · intro h
    simp only [build_features]
    rw [if_neg (by omega)]
    rfl

/-- C8 witness: the empty history is rejected; a 60-record history of the
right athlete is accepted. -/
theorem C8_witness :
    ((([] : List Row).filter (fun r => r.athlete_id = (mkR 60 0).athlete_id)).length < 60 ∧
      build_features (mkR 60 0) []
        = Except.error "Athlete must have at least 60 days of history.") ∧
    (60 ≤ ((List.replicate 60 (mkR 0 50)).filter
          (fun r => r.athlete_id = (mkR 60 0).athlete_id)).length ∧
      (build_features (mkR 60 0) (List.replicate 60 (mkR 0 50))).toOption.isSome = true) :=
  ⟨⟨by decide, (C8_min_history_gate (mkR 60 0) []).1 (by decide)⟩,
   ⟨by decide, (C8_min_history_gate (mkR 60 0) (List.replicate 60 (mkR 0 50))).2 (by decide)⟩⟩

/-! ### Claim C9 — ordering violations in the incremental mode -/

/-- C9 counterexample: a history of 60 records all carrying the same
`(athlete, date)` pair — maximally unordered and maximally duplicated —
is not rejected: `build_features` silently sorts (line 40) and returns a
feature row. -/
theorem C9_counterexample :
    strictByDate (List.replicate 60 (mkR 5 50) ++ [mkR 5 50]) = false ∧
    (build_features (mkR 5 50) (List.replicate 60 (mkR 5 50))).toOption.isSome = true := by
  constructor
  · decide
  · simp only [build_features]
    rw [if_neg (by decide)]
    rfl

/-- C9 (amended): `build_features` never raises on ordering or duplicate
`(athlete, date)` pairs; it silently re-sorts by `["athlete_id", "date"]`
and the only rejection is the under-60 history gate: it succeeds exactly
when the athlete has at least 60 stored records. -/
theorem C9_accepts_any_order (today : Row) (history : List Row) :
    (build_features today history).toOption.isSome = true
      ↔ 60 ≤ (history.filter (fun r => r.athlete_id = today.athlete_id)).length := by
  simp only [build_features]
  by_cases hc : (history.filter (fun r => r.athlete_id = today.athlete_id)).length < 60
  · rw [if_pos hc]
    simp [Except.toOption]
    omega
  · rw [if_neg hc]
    simp [Except.toOption]
    omega

/-! ### Claim C10 — the pipeline functions do not mutate their argument -/

/-- C10: in the store model, `engineer_features`, `compute_risk_score`
and `assign_risk_zone` each copy the argument dataframe first
(`df = df.copy()`) and write derived columns only into the fresh cell, so
the caller's cell holds exactly the value it held before the call. -/
theorem C10_no_mutation (s : Store) (r : ℕ) (h : r < s.length) :
    ((engineer_features_prog s r).1).get? r = s.get? r ∧
    ((compute_risk_score_prog s r).1).get? r = s.get? r ∧
    ((assign_risk_zone_prog s r).1).get? r = s.get? r := by
  have hne : s.length ≠ r := by omega
  refine ⟨?_, ?_, ?_⟩ <;>
    simp only [engineer_features_prog, compute_risk_score_prog, assign_risk_zone_prog] <;>
    rw [List.get?_eq_getElem?, List.getElem?_set_ne hne, List.getElem?_append, if_pos h,
      ← List.get?_eq_getElem?]

/-! ### Claim C4 — epsilon guard on the HRV z-score -/

/-- C4 counterexample: the incremental z-score of a 61-record
constant-HRV athlete is undefined (NaN, from the unguarded `x.std()` of
`0`), and even the batch z-score of a single-record athlete is undefined
(its `ddof = 1` std is NaN, which the `1e-6` guard does not repair) —
against the claim that in both modes `hrv_z` is well-defined for every
input series. -/
theorem C4_counterexample :
    (hrvZGroupInc (List.replicate 61 (mkR 0 50))).get? 0 = some none ∧
    (hrvZGroup [mkR 0 50]).get? 0 = some none := by
  constructor
  · have hc : (List.replicate 61 (mkR 0 50)).map (fun r => r.hrv)
        = List.replicate ((List.replicate 61 (mkR 0 50)).length) (50 : ℝ) := rfl
    rw [hrvZGroupInc_const _ 50 (by decide) hc]
    rfl
  · rfl

/-- C4 (amended): only the batch transform guards the z-score divisor
with `1e-6`; its `hrv_z` is defined for every series of at least two
records, including a constant one, but the incremental transform divides
by the raw std and is undefined on constant series, and both modes are
undefined on single-record series. -/
theorem C4_batch_epsilon_guard (g : List Row) (hg : 2 ≤ g.length) (i : ℕ)
    (hi : i < g.length) :
    ∃ v : ℝ, (hrvZGroup g).get? i = some (some v) := by
  have hi2 : i < (g.map (fun r => r.hrv)).length := by
    simp only [List.length_map]
    omega
  obtain ⟨s, hs⟩ : ∃ s, sampleStd (g.map (fun r => r.hrv)) = some s := by
    rw [sampleStd, if_neg (by simp only [List.length_map]; omega)]
    exact ⟨_, rfl⟩
  simp only [hrvZGroup, hs]
  refine ⟨((g.map (fun r => r.hrv)).get ⟨i, hi2⟩ - mean (g.map (fun r => r.hrv)))
      / (s + 1e-6), ?_⟩
  rw [List.get?_eq_getElem?, List.getElem?_map, List.getElem?_eq_getElem hi2,
    Option.map_some', List.get_eq_getElem]

/-- C4 witness: a two-record constant-HRV athlete has a defined batch
z-score. -/
theorem C4_witness :
    2 ≤ ([mkR 0 50, mkR 1 50] : List Row).length ∧
    ∃ v : ℝ, (hrvZGroup [mkR 0 50, mkR 1 50]).get? 0 = some (some v) :=
  ⟨by decide, C4_batch_epsilon_guard [mkR 0 50, mkR 1 50] (by decide) 0 (by decide)⟩

/-! ### Claim C3 — scope of the recovery-score normalizing maxima -/

/-- The `hrv_z` column of `dfA`: both athletes have constant HRV, so
every z-score is `0` (per group, with the batch epsilon guard). -/
theorem hrvZCol_dfA : hrvZCol dfA = [some 0, some 0, some 0, some 0] := by
  have hg1 : hrvZGroup [mkR2 1 0 40, mkR2 1 1 40] = [some 0, some 0] := by
    rw [hrvZGroup_const [mkR2 1 0 40, mkR2 1 1 40] 50 (by decide) rfl]
    rfl
  have hg2 : hrvZGroup [mkR2 2 0 40, mkR2 2 1 40] = [some 0, some 0] := by
    rw [hrvZGroup_const [mkR2 2 0 40, mkR2 2 1 40] 50 (by decide) rfl]
    rfl
  apply List.ext_get?
  intro n
  match n with
  | 0 =>
      rw [hrvZCol, transformCol_get? hrvZGroup dfA 0 (mkR2 1 0 40) rfl]
      rw [show groupRows dfA (mkR2 1 0 40).athlete_id = [mkR2 1 0 40, mkR2 1 1 40] from rfl, hg1]
      rfl
  | 1 =>
      rw [hrvZCol, transformCol_get? hrvZGroup dfA 1 (mkR2 1 1 40) rfl]
      rw [show groupRows dfA (mkR2 1 1 40).athlete_id = [mkR2 1 0 40, mkR2 1 1 40] from rfl, hg1]
      rfl
  | 2 =>
      rw [hrvZCol, transformCol_get? hrvZGroup dfA 2 (mkR2 2 0 40) rfl]
      rw [show groupRows dfA (mkR2 2 0 40).athlete_id = [mkR2 2 0 40, mkR2 2 1 40] from rfl, hg2]
      rfl
  | 3 =>
      rw [hrvZCol, transformCol_get? hrvZGroup dfA 3 (mkR2 2 1 40) rfl]
      rw [show groupRows dfA (mkR2 2 1 40).athlete_id = [mkR2 2 0 40, mkR2 2 1 40] from rfl, hg2]
      rfl
  | (n + 4) =>
      have hlen : (hrvZCol dfA).get? (n + 4) = none := by
        rw [List.get?_eq_none, hrvZCol, length_transformCol]
        show dfA.length ≤ n + 4
        have : dfA.length = 4 := rfl
        omega
      rw [hlen]
      rfl

/-- The `hrv_z` column of `dfB` is identical: HRV is untouched. -/
theorem hrvZCol_dfB : hrvZCol dfB = [some 0, some 0, some 0, some 0] := by
  have hg1 : hrvZGroup [mkR2 1 0 40, mkR2 1 1 40] = [some 0, some 0] := by
    rw [hrvZGroup_const [mkR2 1 0 40, mkR2 1 1 40] 50 (by decide) rfl]
    rfl
  have hg2 : hrvZGroup [mkR2 2 0 90, mkR2 2 1 90] = [some 0, some 0] := by
    rw [hrvZGroup_const [mkR2 2 0 90, mkR2 2 1 90] 50 (by decide) rfl]
    rfl
  apply List.ext_get?
  intro n
  match n with
  | 0 =>
      rw [hrvZCol, transformCol_get? hrvZGroup dfB 0 (mkR2 1 0 40) rfl]
      rw [show groupRows dfB (mkR2 1 0 40).athlete_id = [mkR2 1 0 40, mkR2 1 1 40] from rfl, hg1]
      rfl
  | 1 =>
      rw [hrvZCol, transformCol_get? hrvZGroup dfB 1 (mkR2 1 1 40) rfl]
      rw [show groupRows dfB (mkR2 1 1 40).athlete_id = [mkR2 1 0 40, mkR2 1 1 40] from rfl, hg1]
      rfl
  | 2 =>
      rw [hrvZCol, transformCol_get? hrvZGroup dfB 2 (mkR2 2 0 90) rfl]
      rw [show groupRows dfB (mkR2 2 0 90).athlete_id = [mkR2 2 0 90, mkR2 2 1 90] from rfl, hg2]
      rfl
  | 3 =>
      rw [hrvZCol, transformCol_get? hrvZGroup dfB 3 (mkR2 2 1 90) rfl]
      rw [show groupRows dfB (mkR2 2 1 90).athlete_id = [mkR2 2 0 90, mkR2 2 1 90] from rfl, hg2]
      rfl
  | (n + 4) =>
      have hlen : (hrvZCol dfB).get? (n + 4) = none := by
        rw [List.get?_eq_none, hrvZCol, length_transformCol]
        show dfB.length ≤ n + 4
        have : dfB.length = 4 := rfl
        omega
      rw [hlen]
      rfl

/-- The recovery score of athlete 1's first record in `dfA`, with the
resting-heart-rate maximum `40` taken over the whole batch. -/
theorem recoveryCol_dfA_0 : (recoveryCol dfA).get? 0
    = some (some ((0.5 : ℝ) * 1 + 0.3 * (0 / (0 + 1e-6)) - 0.2 * (40 / (40 + 1e-6)))) := by
  have hmz : omaxAbs [some (0 : ℝ), some 0, some 0, some 0] = some 0 := by
    simp [omaxAbs, listMax]
  have hmr : listMax (dfA.map (fun r => r.resting_hr)) = some 40 := by
    show listMax [(40 : ℝ), 40, 40, 40] = some 40
    simp [listMax]
  simp only [recoveryCol, hrvZCol_dfA, hmz, hmr]
  rw [List.get?_eq_getElem?, List.getElem?_zipWith]
  rfl

/-- The recovery score of athlete 1's first record in `dfB`: athlete 1's
own records are unchanged, but the batch-wide resting-heart-rate maximum
is now athlete 2's `90`. -/
theorem recoveryCol_dfB_0 : (recoveryCol dfB).get? 0
    = some (some ((0.5 : ℝ) * 1 + 0.3 * (0 / (0 + 1e-6)) - 0.2 * (40 / (90 + 1e-6)))) := by
  have hmz : omaxAbs [some (0 : ℝ), some 0, some 0, some 0] = some 0 := by
    simp [omaxAbs, listMax]
  have hmr : listMax (dfB.map (fun r => r.resting_hr)) = some 90 := by
    show listMax [(40 : ℝ), 40, 90, 90] = some 90
    simp [listMax]
    norm_num [max_def]
  simp only [recoveryCol, hrvZCol_dfB, hmz, hmr]
  rw [List.get?_eq_getElem?, List.getElem?_zipWith]
  rfl

/-- C3 counterexample: `dfA` and `dfB` agree on every record of
athlete 1 and differ only in athlete 2's resting heart rate, yet
athlete 1's `recovery_score` changes — the normalizing maxima of
`engineer_features` (lines 48–49) are taken over the whole dataframe,
not per athlete. -/
theorem C3_counterexample :
    dfA.filter (fun r => r.athlete_id = 1) = dfB.filter (fun r => r.athlete_id = 1) ∧
    ((engineer_features dfA).get? 0).map (fun f => f.recovery_score)
      ≠ ((engineer_features dfB).get? 0).map (fun f => f.recovery_score) := by
  refine ⟨rfl, ?_⟩
  rw [engineer_features_get? dfA 0 (mkR2 1 0 40) rfl,
    engineer_features_get? dfB 0 (mkR2 1 0 40) rfl]
  simp only [Option.map_some']
  show some (((recoveryCol dfA).get? 0).getD none)
      ≠ some (((recoveryCol dfB).get? 0).getD none)
  rw [recoveryCol_dfA_0, recoveryCol_dfB_0]
  simp only [ne_eq, Option.getD_some, Option.some_inj]
  norm_num

/-- C3 (amended): the normalizing maxima inside `recovery_score` are the
maximum of `|hrv_z|` and of `resting_hr` over the ENTIRE batch (all
athletes), so an athlete's recovery score can depend on other athletes'
records; with those global maxima `m` and `mr` the score of row `i` is
`0.5*sleep + 0.3*(z/(m+1e-6)) - 0.2*(resting_hr/(mr+1e-6))`. -/
theorem C3_global_scope (rows : List Row) (i : ℕ) (r : Row) (z m mr : ℝ)
    (hr : rows.get? i = some r)
    (hz : (hrvZCol rows).get? i = some (some z))
    (hm : omaxAbs (hrvZCol rows) = some m)
    (hmr : listMax (rows.map (fun x => x.resting_hr)) = some mr) :
    ((engineer_features rows).get? i).map (fun f => f.recovery_score)
      = some (some (0.5 * r.sleep_quality + 0.3 * (z / (m + 1e-6))
          - 0.2 * (r.resting_hr / (mr + 1e-6)))) := by
  have hr2 : rows[i]? = some r := by
    rw [← List.get?_eq_getElem?]
    exact hr
  have hz2 : (hrvZCol rows)[i]? = some (some z) := by
    rw [← List.get?_eq_getElem?]
    exact hz
  rw [engineer_features_get? rows i r hr]
  simp only [Option.map_some']
  show some (((recoveryCol rows).get? i).getD none) = _
  simp only [recoveryCol, hm, hmr]
  rw [List.get?_eq_getElem?, List.getElem?_zipWith, hr2, hz2]
  rfl

/-- C3 witness: the global-scope formula evaluated on `dfA`. -/
theorem C3_witness :
    ((engineer_features dfA).get? 0).map (fun f => f.recovery_score)
      = some (some (0.5 * (mkR2 1 0 40).sleep_quality + 0.3 * (0 / (0 + 1e-6))
          - 0.2 * ((mkR2 1 0 40).resting_hr / (40 + 1e-6)))) :=
  C3_global_scope dfA 0 (mkR2 1 0 40) 0 0 40 rfl
    (by rw [hrvZCol_dfA]; rfl)
    (by rw [hrvZCol_dfA]; simp [omaxAbs, listMax])
    (by show listMax [(40 : ℝ), 40, 40, 40] = some 40; simp [listMax])

/-! ### Claim C5 — the weighted risk-score formula -/

/-- One entry of a min-max normalized column whose batch-wide min and max
are defined. -/
theorem minmaxCol_get? (xs : List (Option ℝ)) (i : ℕ) (v mn mx : ℝ)
    (hv : xs.get? i = some (some v))
    (hmn : listMin (xs.filterMap id) = some mn)
    (hmx : listMax (xs.filterMap id) = some mx) :
    (minmaxCol xs).get? i = some (some ((v - mn) / (mx - mn + 1e-6))) := by
  simp only [minmaxCol, hmn, hmx]
  rw [List.get?_eq_getElem?, List.getElem?_map,
    show xs[i]? = some (some v) from (by rw [← List.get?_eq_getElem?]; exact hv)]
  rfl

/-- C5: on any batch whose row `i` has defined features and whose four
normalized columns have defined batch-wide minima and maxima (taken over
the FULL batch — all athletes, all days), `compute_risk_score` assigns
row `i` the score `0.25*minmax(load_7d) + 0.25*minmax(-hrv_drop)
+ 0.15*minmax(training_monotony_log) + 0.20*(1 - minmax(recovery_score))
+ 0.15*history_risk`, with `minmax(x) = (x - min)/(max - min + 1e-6)`. -/
theorem C5_risk_formula (dfF : List FeatB) (i : ℕ) (f : FeatB)
    (l dr mo rc lmn lmx dmn dmx mmn mmx rmn rmx : ℝ)
    (hf : dfF.get? i = some f)
    (hl : f.load_7d = some l) (hdr : f.hrv_drop = some dr)
    (hmo : f.training_monotony_log = some mo) (hrc : f.recovery_score = some rc)
    (h1 : listMin ((dfF.map (fun g => g.load_7d)).filterMap id) = some lmn)
    (h2 : listMax ((dfF.map (fun g => g.load_7d)).filterMap id) = some lmx)
    (h3 : listMin ((dfF.map (fun g => g.hrv_drop.map (fun v => -v))).filterMap id) = some dmn)
    (h4 : listMax ((dfF.map (fun g => g.hrv_drop.map (fun v => -v))).filterMap id) = some dmx)
    (h5 : listMin ((dfF.map (fun g => g.training_monotony_log)).filterMap id) = some mmn)
    (h6 : listMax ((dfF.map (fun g => g.training_monotony_log)).filterMap id) = some mmx)
    (h7 : listMin ((dfF.map (fun g => g.recovery_score)).filterMap id) = some rmn)
    (h8 : listMax ((dfF.map (fun g => g.recovery_score)).filterMap id) = some rmx) :
    (compute_risk_score dfF).get? i = some (some (
      0.25 * ((l - lmn) / (lmx - lmn + 1e-6))
      + 0.25 * ((-dr - dmn) / (dmx - dmn + 1e-6))
      + 0.15 * ((mo - mmn) / (mmx - mmn + 1e-6))
      + 0.20 * (1 - (rc - rmn) / (rmx - rmn + 1e-6))
      + 0.15 * f.history_risk)) := by
  obtain ⟨hi, -⟩ := List.get?_eq_some.mp hf
  have hload : (dfF.map (fun g => g.load_7d)).get? i = some (some l) := by
    rw [List.get?_eq_getElem?, List.getElem?_map, ← List.get?_eq_getElem?, hf,
      Option.map_some', hl]
  have hdrop : (dfF.map (fun g => g.hrv_drop.map (fun v => -v))).get? i
      = some (some (-dr)) := by
    rw [List.get?_eq_getElem?, List.getElem?_map, ← List.get?_eq_getElem?, hf,
      Option.map_some', hdr]
    rfl
  have hmono : (dfF.map (fun g => g.training_monotony_log)).get? i = some (some mo) := by
    rw [List.get?_eq_getElem?, List.getElem?_map, ← List.get?_eq_getElem?, hf,
      Option.map_some', hmo]
  have hrec : (dfF.map (fun g => g.recovery_score)).get? i = some (some rc) := by
    rw [List.get?_eq_getElem?, List.getElem?_map, ← List.get?_eq_getElem?, hf,
      Option.map_some', hrc]
  have e1 := minmaxCol_get? _ i l lmn lmx hload h1 h2
  have e2 := minmaxCol_get? _ i (-dr) dmn dmx hdrop h3 h4
  have e3 := minmaxCol_get? _ i mo mmn mmx hmono h5 h6
  have e4 := minmaxCol_get? _ i rc rmn rmx hrec h7 h8
  simp only [compute_risk_score]
  rw [List.get?_eq_getElem?, List.getElem?_map, List.getElem?_range hi, Option.map_some']
  rw [show (minmaxCol (dfF.map (fun g => g.load_7d))).get? i
      = some (some ((l - lmn) / (lmx - lmn + 1e-6))) from e1]
  rw [show (minmaxCol (dfF.map (fun g => g.hrv_drop.map (fun v => -v)))).get? i
      = some (some ((-dr - dmn) / (dmx - dmn + 1e-6))) from e2]
  rw [show (minmaxCol (dfF.map (fun g => g.training_monotony_log))).get? i
      = some (some ((mo - mmn) / (mmx - mmn + 1e-6))) from e3]
  rw [show ((minmaxCol (dfF.map (fun g => g.recovery_score))).map
        (fun x => x.map (fun v => 1 - v))).get? i
      = some (some (1 - (rc - rmn) / (rmx - rmn + 1e-6))) from (by
    rw [List.get?_eq_getElem?, List.getElem?_map, ← List.get?_eq_getElem?, e4]
    rfl)]
  rw [hf]
  rfl

/-- C5 witness on a two-row batch of identical feature rows (so every
batch-wide min and max equals the common value). -/
theorem C5_witness :
    (compute_risk_score [wRow, wRow]).get? 0 = some (some (
      0.25 * (((2 : ℝ) - 2) / (2 - 2 + 1e-6))
      + 0.25 * ((-(0.1 : ℝ) - -(0.1 : ℝ)) / (-(0.1 : ℝ) - -(0.1 : ℝ) + 1e-6))
      + 0.15 * (((1.2 : ℝ) - 1.2) / (1.2 - 1.2 + 1e-6))
      + 0.20 * (1 - ((0.6 : ℝ) - 0.6) / (0.6 - 0.6 + 1e-6))
      + 0.15 * wRow.history_risk)) :=
  C5_risk_formula [wRow, wRow] 0 wRow 2 0.1 1.2 0.6 2 2 (-(0.1)) (-(0.1)) 1.2 1.2 0.6 0.6
    rfl rfl rfl rfl rfl
    (by show listMin [(2 : ℝ), 2] = some 2; simp [listMin])
    (by show listMax [(2 : ℝ), 2] = some 2; simp [listMax])
    (by show listMin [-(0.1 : ℝ), -(0.1 : ℝ)] = some (-(0.1)); simp [listMin])
    (by show listMax [-(0.1 : ℝ), -(0.1 : ℝ)] = some (-(0.1)); simp [listMax])
    (by show listMin [(1.2 : ℝ), 1.2] = some 1.2; simp [listMin])
    (by show listMax [(1.2 : ℝ), 1.2] = some 1.2; simp [listMax])
    (by show listMin [(0.6 : ℝ), 0.6] = some 0.6; simp [listMin])
    (by show listMax [(0.6 : ℝ), 0.6] = some 0.6; simp [listMax])

/-! ### Claim C6 — per-athlete temporal train/test split -/

/-- C6: for an athlete whose records are date-ordered, the temporal
partitioner puts exactly the first `⌊0.8 n⌋` records in the train slice
and the other `n - ⌊0.8 n⌋` in the test slice, the two slices partition
the records with no record in both, and every train date is at most every
test date. -/
theorem C6_split (df : List Row) (a : ℕ)
    (hs : strictByDate (df.filter (fun r => r.athlete_id = a)) = true) :
    (splitAthlete df a).1.length
        = Nat.floor ((0.8 : ℚ) * (df.filter (fun r => r.athlete_id = a)).length) ∧
    (splitAthlete df a).1.length + (splitAthlete df a).2.length
        = (df.filter (fun r => r.athlete_id = a)).length ∧
    (∀ x ∈ (splitAthlete df a).1, ∀ y ∈ (splitAthlete df a).2, x.date ≤ y.date) ∧
    (∀ x ∈ (splitAthlete df a).1, x ∉ (splitAthlete df a).2) := by
  have hg : sortBy dateLe (df.filter (fun r => r.athlete_id = a))
      = df.filter (fun r => r.athlete_id = a) :=
    sortBy_eq_self dateLe _ (chainB_dateLe_of_strict _ hs)
  set g := df.filter (fun r => r.athlete_id = a) with hgd
  set k := 4 * g.length / 5 with hkd
  have hsp : splitAthlete df a = (g.take k, g.drop k) := by
    simp only [splitAthlete, ← hgd, hg, ← hkd]
  have hk : k ≤ g.length := by omega
  have hfloor : Nat.floor ((0.8 : ℚ) * g.length) = k := by
    have h48 : (0.8 : ℚ) * g.length = ((4 * g.length : ℕ) : ℚ) / ((5 : ℕ) : ℚ) := by
      push_cast
      ring
    rw [h48, Nat.floor_div_nat, Nat.floor_natCast]
  have hpair : List.Pairwise (fun x y : Row => x.date < y.date) (g.take k ++ g.drop k) := by
    rw [List.take_append_drop k g]
    exact pairwise_of_strictByDate g hs
  have hcross := (List.pairwise_append.mp hpair).2.2
  refine ⟨?_, ?_, ?_, ?_⟩
  · rw [hsp, hfloor]
    simpa [List.length_take] using min_eq_left hk
  · rw [hsp]
    simp [List.length_take, List.length_drop]
    omega
  · intro x hx y hy
    rw [hsp] at hx hy
    exact le_of_lt (hcross x hx y hy)
  · intro x hx hx2
    rw [hsp] at hx hx2
    exact absurd (hcross x hx x hx2) (lt_irrefl _)

/-- C6 witness on a five-record athlete: the train slice holds the first
`⌊0.8 * 5⌋ = 4` records. -/
theorem C6_witness :
    strictByDate ([mkR 0 50, mkR 1 50, mkR 2 50, mkR 3 50, mkR 4 50].filter
        (fun r => r.athlete_id = 1)) = true ∧
    (splitAthlete [mkR 0 50, mkR 1 50, mkR 2 50, mkR 3 50, mkR 4 50] 1).1.length
      = Nat.floor ((0.8 : ℚ) *
          ([mkR 0 50, mkR 1 50, mkR 2 50, mkR 3 50, mkR 4 50].filter
            (fun r => r.athlete_id = 1)).length) :=
  ⟨by decide, (C6_split [mkR 0 50, mkR 1 50, mkR 2 50, mkR 3 50, mkR 4 50] 1 (by decide)).1⟩

/-! ### Claim C1 — batch vs incremental feature values -/

/-- The HRV column of the comparison data. -/
theorem hrv_col_df61 : df61.map (fun r => r.hrv) = hrv61 := rfl

/-- Its mean is zero. -/
theorem mean_hrv61 : mean hrv61 = 0 := by
  rw [mean]
  norm_num [hrv61]

/-- Its athlete-wide sample std is exactly `7`. -/
theorem sampleStd_hrv61 : sampleStd hrv61 = some 7 := by
  have h1 : (hrv61.map (fun x => (x - mean hrv61) ^ 2)).sum = 2940 := by
    rw [mean_hrv61]
    norm_num [hrv61]
  rw [sampleStd, if_neg (by norm_num [hrv61]), h1]
  rw [show ((hrv61.length : ℝ) - 1) = 60 by norm_num [hrv61]]
  rw [show (2940 : ℝ) / 60 = 7 ^ 2 by norm_num]
  rw [Real.sqrt_sq (by norm_num : (0 : ℝ) ≤ 7)]

/-- The batch z-score column of the single group of `df61`. -/
theorem hrvZGroup_df61 :
    hrvZGroup df61 = hrv61.map (fun x => some (x / (7 + 1e-6))) := by
  rw [hrvZGroup]
  simp only [hrv_col_df61, sampleStd_hrv61, mean_hrv61]
  simp [sub_zero]

/-- The incremental z-score column of the single group of `df61`. -/
theorem hrvZGroupInc_df61 :
    hrvZGroupInc df61 = hrv61.map (fun x => some (x / 7)) := by
  rw [hrvZGroupInc]
  simp only [hrv_col_df61, sampleStd_hrv61, mean_hrv61]
  rw [if_neg (by norm_num)]
  simp [sub_zero]

/-- The batch rolling 7-day mean of the z-scores at the newest day:
six window entries `7/(7+1e-6)` and one `0`. -/
theorem hrv7_batch_60 :
    (rollingMean 7 3 (hrvZGroup df61)).get? 60 = some (some (6 / (7 + 1e-6))) := by
  rw [hrvZGroup_df61]
  rw [rollingMean_get? 7 3 _ 60 (by norm_num [hrv61])]
  rw [show (window 7 (hrv61.map (fun x => some (x / (7 + 1e-6)))) 60).filterMap id
      = [7 / (7 + 1e-6), 7 / (7 + 1e-6), 7 / (7 + 1e-6), 7 / (7 + 1e-6),
         7 / (7 + 1e-6), 7 / (7 + 1e-6), 0 / (7 + 1e-6)] from rfl]
  rw [if_pos (by norm_num)]
  rw [show mean [7 / (7 + 1e-6), 7 / (7 + 1e-6), 7 / (7 + 1e-6), 7 / (7 + 1e-6),
      7 / (7 + 1e-6), 7 / (7 + 1e-6), 0 / (7 + 1e-6)] = 6 / (7 + 1e-6) by
    rw [mean]
    norm_num]

/-- The incremental rolling 7-day mean of the z-scores at the newest day. -/
theorem hrv7_inc_60 :
    (rollingMean 7 1 (hrvZGroupInc df61)).get? 60 = some (some (6 / 7)) := by
  rw [hrvZGroupInc_df61]
  rw [rollingMean_get? 7 1 _ 60 (by norm_num [hrv61])]
  rw [show (window 7 (hrv61.map (fun x => some (x / 7))) 60).filterMap id
      = [7 / 7, 7 / 7, 7 / 7, 7 / 7, 7 / 7, 7 / 7, 0 / 7] from rfl]
  rw [if_pos (by norm_num)]
  rw [show mean [(7 : ℝ) / 7, 7 / 7, 7 / 7, 7 / 7, 7 / 7, 7 / 7, 0 / 7] = 6 / 7 by
    rw [mean]
    norm_num]

/-- The batch z-score of the newest day is `0`. -/
theorem hrvZCol_df61_60 : (hrvZCol df61).get? 60 = some (some 0) := by
  rw [hrvZCol, transformCol_get? hrvZGroup df61 60 today60 rfl]
  rw [show groupRows df61 today60.athlete_id = df61 from rfl,
    show groupPos df61 60 today60.athlete_id = 60 from rfl, hrvZGroup_df61]
  rw [show (hrv61.map (fun x => some (x / (7 + 1e-6)))).get? 60
      = some (some ((0 : ℝ) / (7 + 1e-6))) from rfl]
  norm_num

/-- The batch `hrv_drop` of the newest day, before the fill pass. -/
theorem hrvDropCol_df61_60 :
    (hrvDropCol df61).get? 60 = some (some (-(6 / (7 + 1e-6)))) := by
  have h1 : (hrvZCol df61)[60]? = some (some (0 : ℝ)) := by
    rw [← List.get?_eq_getElem?]
    exact hrvZCol_df61_60
  have h2 : (hrv7Col df61)[60]? = some (some ((6 : ℝ) / (7 + 1e-6))) := by
    rw [← List.get?_eq_getElem?]
    rw [hrv7Col, transformCol_get? hrv7Group df61 60 today60 rfl]
    rw [show groupRows df61 today60.athlete_id = df61 from rfl,
      show groupPos df61 60 today60.athlete_id = 60 from rfl]
    rw [show hrv7Group df61 = rollingMean 7 3 (hrvZGroup df61) from rfl, hrv7_batch_60]
    rfl
  rw [hrvDropCol, List.get?_eq_getElem?, List.getElem?_zipWith, h1, h2]
  show some (osub (some 0) (some (6 / (7 + 1e-6)))) = _
  rw [show osub (some 0) (some (6 / (7 + 1e-6))) = some (0 - 6 / (7 + 1e-6)) from rfl]
  norm_num

/-- The batch `hrv_drop` of the newest day survives the per-group
`ffill().bfill()` pass unchanged (it is defined before the pass). -/
theorem batch_hrv_drop_60 :
    ((engineer_features df61).get? 60).map (fun f => f.hrv_drop)
      = some (some (-(6 / (7 + 1e-6)))) := by
  rw [engineer_features_get? df61 60 today60 rfl]
  simp only [Option.map_some']
  show some (((fillByGroup df61 (hrvDropCol df61)).get? 60).getD none) = _
  rw [fillByGroup_get? df61 (hrvDropCol df61) 60 today60 rfl]
  have hall : ∀ r ∈ df61, r.athlete_id = 1 := all_athlete_of_map df61 1 rfl
  have hlen : (hrvDropCol df61).length = df61.length := by
    rw [hrvDropCol, List.length_zipWith, hrvZCol, hrv7Col, length_transformCol,
      length_transformCol]
    simp
  rw [show today60.athlete_id = 1 from rfl, groupSlice_eq_self df61 _ 1 hall hlen]
  rw [show groupPos df61 60 1 = 60 from rfl]
  rw [bfill_get?_some _ _ _ (ffill_get?_some _ _ _ hrvDropCol_df61_60)]
  rfl

/-- The incremental `hrv_drop` of the newest day. -/
theorem inc_hrv_drop_60 :
    (build_features today60 hist60).toOption.map (fun f => f.hrv_drop)
      = some (some (-(6 / 7))) := by
  have hz : (transformCol hrvZGroupInc df61).get? 60 = some (some (0 : ℝ)) := by
    rw [transformCol_get? hrvZGroupInc df61 60 today60 rfl]
    rw [show groupRows df61 today60.athlete_id = df61 from rfl,
      show groupPos df61 60 today60.athlete_id = 60 from rfl, hrvZGroupInc_df61]
    rw [show (hrv61.map (fun x => some (x / 7))).get? 60 = some (some ((0 : ℝ) / 7)) from rfl]
    norm_num
  have h7 : (transformCol (fun g => rollingMean 7 1 (hrvZGroupInc g)) df61).get? 60
      = some (some ((6 : ℝ) / 7)) := by
    rw [transformCol_get? (fun g => rollingMean 7 1 (hrvZGroupInc g)) df61 60 today60 rfl]
    rw [show groupRows df61 today60.athlete_id = df61 from rfl,
      show groupPos df61 60 today60.athlete_id = 60 from rfl]
    simp only [hrv7_inc_60]
    rfl
  have hfilt : hist60.filter (fun r => r.athlete_id = today60.athlete_id) = hist60 := rfl
  have hsort : sortBy rowLe (hist60 ++ [today60]) = df61 := by
    rw [show hist60 ++ [today60] = df61 from rfl]
    exact sortBy_eq_self rowLe df61 rfl
  simp only [build_features, hfilt]
  rw [if_neg (by decide), hsort]
  show some (((List.zipWith osub (transformCol hrvZGroupInc df61)
      (transformCol (fun g => rollingMean 7 1 (hrvZGroupInc g)) df61)).get?
        (df61.length - 1)).getD none)
    = some (some (-(6 / 7)))
  rw [show df61.length - 1 = 60 from rfl]
  rw [List.get?_eq_getElem?, List.getElem?_zipWith,
    show (transformCol hrvZGroupInc df61)[60]? = some (some (0 : ℝ)) from
      (by rw [← List.get?_eq_getElem?]; exact hz),
    show (transformCol (fun g => rollingMean 7 1 (hrvZGroupInc g)) df61)[60]?
        = some (some ((6 : ℝ) / 7)) from (by rw [← List.get?_eq_getElem?]; exact h7)]
  show some (osub (some 0) (some ((6 : ℝ) / 7))) = _
  rw [show osub (some 0) (some ((6 : ℝ) / 7)) = some (0 - 6 / 7) from rfl]
  norm_num

/-- C1: on the 61-record series `df61` (one athlete, 60 days of ordered
history plus the newest day), the batch transform and the incremental
transform disagree on the newest day's `hrv_drop`: the batch z-scores are
damped by the `1e-6` guard (`hrv_drop = -(6/(7+1e-6))`) while the
incremental ones are not (`hrv_drop = -6/7`), so the two modes do NOT
produce identical feature vectors for the same `(athlete, date)` and
prefix of history. -/
theorem C1_modes_diverge :
    ((engineer_features df61).get? 60).map (fun f => f.hrv_drop)
      = some (some (-(6 / (7 + 1e-6)))) ∧
    (build_features today60 hist60).toOption.map (fun f => f.hrv_drop)
      = some (some (-(6 / 7))) ∧
    (-(6 / (7 + 1e-6)) : ℝ) ≠ -(6 / 7) :=
  ⟨batch_hrv_drop_60, inc_hrv_drop_60, by norm_num⟩

/-- C10 witness on a one-cell store. -/
theorem C10_witness :
    0 < ([PyVal.rows []] : Store).length ∧
    (((engineer_features_prog [PyVal.rows []] 0).1).get? 0
        = ([PyVal.rows []] : Store).get? 0 ∧
      ((compute_risk_score_prog [PyVal.rows []] 0).1).get? 0
        = ([PyVal.rows []] : Store).get? 0 ∧
      ((assign_risk_zone_prog [PyVal.rows []] 0).1).get? 0
        = ([PyVal.rows []] : Store).get? 0) :=
  ⟨by decide, C10_no_mutation [PyVal.rows []] 0 (by decide)⟩

end RiskRadar
